import Mathlib

/-!
# Verification of the GEO-and-SEO crawl orchestration and scoring engine

Shallow embedding of `mvp-backend/app/services/seo_analyzer.py`,
`mvp-backend/app/services/url_fetcher.py` and the deep-scan crawl loop of
`mvp-backend/app/api/analysis.py`, together with theorems settling the
testable properties of the specification.

Modelling conventions:
* Python strings are `String`, Python `int` is `Int`, counts are `Nat`.
* Python truthiness on optional strings (`if not s`) is `pyTruthy`.
* A parsed HTML document (`BeautifulSoup` object) is the `Soup` structure:
  it records exactly the queries the analyzer performs on the parse tree
  (title string, meta tags, link tags, headings, images, anchor hrefs, and
  the text content that remains after the non-content tags are removed).
* Python `set`s that are converted to lists are modelled as
  insertion-ordered duplicate-free lists (`setAdd`).
* Network fetching is a function `String → Option (String × Soup)`
  returning the final URL and parsed content, or `none` for a fetch/parse
  failure; exceptions become `Except`.
-/

/-! ## Python string primitives -/

/-- Whitespace characters recognised by Python's `str.strip` / `str.split`
(ASCII subset). -/
def pyIsSpace (c : Char) : Bool :=
  c = ' ' || c = '\t' || c = '\n' || c = '\r' || c = '\x0b' || c = '\x0c'

/-- Python `str.strip()`: remove leading and trailing whitespace. -/
def pyStrip (s : String) : String :=
  ⟨(s.data.dropWhile pyIsSpace).reverse.dropWhile pyIsSpace |>.reverse⟩

/-- Python `"".join(s.split())`: remove every whitespace character. -/
def removeWhitespace (s : String) : String :=
  ⟨s.data.filter (fun c => !pyIsSpace c)⟩

/-- Python `str.lower()` (ASCII). -/
def pyLower (s : String) : String :=
  ⟨s.data.map Char.toLower⟩

/-- Python `s.startswith(pre)`. -/
def pyStartswith (s pre : String) : Bool :=
  pre.data.isPrefixOf s.data

/-- Python `s.endswith(suf)`. -/
def pyEndswith (s suf : String) : Bool :=
  suf.data.isSuffixOf s.data

/-- Python truthiness of an optional string: `None` and `""` are falsy. -/
def pyTruthy : Option String → Bool
  | none => false
  | some s => s ≠ ""

/-! ## `url_fetcher.normalize_url` -/

/-- Model of `url_fetcher.normalize_url`: strip the URL, return `""` when empty,
remove all whitespace, and prefix `https://` when no `http://`/`https://`
scheme is present. -/
def normalize_url (url : String) : String :=
  let url := pyStrip url
  if url = "" then ""
  else
    let url := removeWhitespace url
    if pyStartswith url "http://" || pyStartswith url "https://" then url
    else "https://" ++ url

/-! ### Support lemmas for the idempotence of `normalize_url` -/

lemma dropWhile_eq_self_of_forall {p : Char → Bool} {l : List Char}
    (h : ∀ c ∈ l, p c = false) : l.dropWhile p = l := by
  cases l with
  | nil => rfl
  | cons a l => simp [List.dropWhile_cons, h a (by simp)]

lemma pyStrip_eq_self_of_no_space {s : String}
    (h : ∀ c ∈ s.data, pyIsSpace c = false) : pyStrip s = s := by
  unfold pyStrip
  rw [dropWhile_eq_self_of_forall h,
    dropWhile_eq_self_of_forall (fun c hc => h c (List.mem_reverse.mp hc)),
    List.reverse_reverse]

lemma removeWhitespace_no_space (s : String) :
    ∀ c ∈ (removeWhitespace s).data, pyIsSpace c = false := by
  intro c hc
  unfold removeWhitespace at hc
  simp only [List.mem_filter] at hc
  simpa using hc.2

lemma removeWhitespace_eq_self_of_no_space {s : String}
    (h : ∀ c ∈ s.data, pyIsSpace c = false) : removeWhitespace s = s := by
  unfold removeWhitespace
  have heq : s.data.filter (fun c => !pyIsSpace c) = s.data := by
    apply List.filter_eq_self.mpr
    intro c hc
    simp [h c hc]
  rw [heq]

lemma no_space_append {s t : List Char}
    (hs : ∀ c ∈ s, pyIsSpace c = false) (ht : ∀ c ∈ t, pyIsSpace c = false) :
    ∀ c ∈ s ++ t, pyIsSpace c = false := by
  intro c hc
  rcases List.mem_append.mp hc with h | h
  · exact hs c h
  · exact ht c h

lemma https_no_space : ∀ c ∈ "https://".data, pyIsSpace c = false := by decide

lemma pyStartswith_append (pre rest : String) :
    pyStartswith (pre ++ rest) pre = true := by
  unfold pyStartswith
  have : (pre ++ rest).data = pre.data ++ rest.data := rfl
  rw [this]
  exact List.isPrefixOf_iff_prefix.mpr (List.prefix_append _ _)

lemma pyStartswith_ne_empty {s pre : String}
    (h : pyStartswith s pre = true) (hpre : pre ≠ "") : s ≠ "" := by
  intro hs
  subst hs
  unfold pyStartswith at h
  have := List.isPrefixOf_iff_prefix.mp h
  have hnil : pre.data = [] := List.prefix_nil.mp this
  exact hpre (by cases pre; simp_all)

lemma append_data (s t : String) : (s ++ t).data = s.data ++ t.data := rfl

/-- C8: `normalize_url` is idempotent: applying it twice gives the same
result as applying it once. -/
theorem normalize_url_idempotent (u : String) :
    normalize_url (normalize_url u) = normalize_url u := by
  by_cases h0 : pyStrip u = ""
  · have h1 : normalize_url u = "" := by unfold normalize_url; simp [h0]
    rw [h1]
    unfold normalize_url
    simp [show pyStrip "" = "" from rfl]
  · -- the first pass produced a whitespace-free URL with a scheme prefix
    set r := removeWhitespace (pyStrip u) with hr
    have hrns : ∀ c ∈ r.data, pyIsSpace c = false := removeWhitespace_no_space _
    by_cases hs : pyStartswith r "http://" || pyStartswith r "https://"
    · have h1 : normalize_url u = r := by unfold normalize_url; simp [h0, ← hr, hs]
      have hne : r ≠ "" := by
        rcases Bool.or_eq_true_iff.mp hs with h | h
        · exact pyStartswith_ne_empty h (by decide)
        · exact pyStartswith_ne_empty h (by decide)
      rw [h1]
      unfold normalize_url
      rw [pyStrip_eq_self_of_no_space hrns]
      simp only [hne, if_false]
      rw [removeWhitespace_eq_self_of_no_space hrns]
      simp [hs]
    · have h1 : normalize_url u = "https://" ++ r := by
        unfold normalize_url; simp [h0, ← hr, hs]
      have hvns : ∀ c ∈ ("https://" ++ r).data, pyIsSpace c = false := by
        rw [append_data]
        exact no_space_append https_no_space hrns
      have hvne : ("https://" ++ r) ≠ "" :=
        pyStartswith_ne_empty (pyStartswith_append "https://" r) (by decide)
      have hvs : pyStartswith ("https://" ++ r) "https://" = true :=
        pyStartswith_append "https://" r
      rw [h1]
      unfold normalize_url
      rw [pyStrip_eq_self_of_no_space hvns]
      simp only [hvne, if_false]
      rw [removeWhitespace_eq_self_of_no_space hvns]
      simp [hvs]

/-! ## `urllib.parse`: `urlsplit`, `urlunsplit`, `urljoin`

The analyzer resolves and classifies URLs with `urllib.parse.urlparse` /
`urljoin`.  The embedding below follows CPython's `urlsplit`/`urljoin`
(the `params` component of `urlparse`, which only concerns `;`-suffixed
path segments, is not modelled: none of the verified properties touch it).
-/

structure UrlParts where
  scheme : String
  netloc : String
  path : String
  query : String
  fragment : String
deriving Repr, DecidableEq

/-- Split a character list at the first occurrence of `sep`:
`(before, some after)` when found, `(l, none)` otherwise. -/
def splitOnceChar (sep : Char) : List Char → List Char × Option (List Char)
  | [] => ([], none)
  | c :: cs =>
    if c = sep then ([], some cs)
    else
      let r := splitOnceChar sep cs
      (c :: r.1, r.2)

/-- Characters allowed in a URL scheme after the initial letter. -/
def isSchemeChar (c : Char) : Bool :=
  c.isAlpha || c.isDigit || c = '+' || c = '-' || c = '.'

/-- Scheme step of CPython `urlsplit`: `(scheme, remainder)`. -/
def splitScheme (cs : List Char) : List Char × List Char :=
  match splitOnceChar ':' cs with
  | (pre, some after) =>
    if pre ≠ [] ∧ (pre.headD ' ').isAlpha ∧ pre.all isSchemeChar
    then (pre.map Char.toLower, after) else ([], cs)
  | (_, none) => ([], cs)

/-- Netloc step of CPython `urlsplit`: after a leading `//`, the netloc
runs until the first `/`, `?` or `#`. -/
def splitNetloc (rest : List Char) : List Char × List Char :=
  if rest.take 2 = ['/', '/'] then
    let after := rest.drop 2
    (after.takeWhile (fun c => !(c = '/' || c = '?' || c = '#')),
     after.dropWhile (fun c => !(c = '/' || c = '?' || c = '#')))
  else ([], rest)

/-- CPython `urllib.parse.urlsplit`: extract scheme, netloc, fragment and
query in that order. -/
def pyUrlsplit (url : String) : UrlParts :=
  let schemeRest := splitScheme url.data
  let netlocRest := splitNetloc schemeRest.2
  let fragSplit := splitOnceChar '#' netlocRest.2
  let querySplit := splitOnceChar '?' fragSplit.1
  { scheme := ⟨schemeRest.1⟩, netloc := ⟨netlocRest.1⟩, path := ⟨querySplit.1⟩,
    query := ⟨querySplit.2.getD []⟩, fragment := ⟨fragSplit.2.getD []⟩ }

/-- CPython `urllib.parse.urlunsplit`. -/
def pyUrlunsplit (scheme netloc path query fragment : String) : String :=
  let url := path
  let url :=
    if netloc ≠ "" ∨ (url ≠ "" ∧ pyStartswith url "//") then
      let url := if url ≠ "" ∧ ¬ pyStartswith url "/" then "/" ++ url else url
      "//" ++ netloc ++ url
    else url
  let url := if scheme ≠ "" then scheme ++ ":" ++ url else url
  let url := if query ≠ "" then url ++ "?" ++ query else url
  if fragment ≠ "" then url ++ "#" ++ fragment else url

/-- Split a character list on every occurrence of `sep`, keeping empty
segments (the behaviour of Python `s.split('/')`). -/
def splitCharList (sep : Char) : List Char → List (List Char)
  | [] => [[]]
  | c :: cs =>
    let r := splitCharList sep cs
    if c = sep then [] :: r
    else
      match r with
      | [] => [[c]]
      | h :: t => (c :: h) :: t

/-- Python `s.split('/')` (keeps empty segments). -/
def pySplitSlash (s : String) : List String :=
  (splitCharList '/' s.data).map (⟨·⟩)

/-- Python `"/".join(l)`. -/
def joinSlash : List String → String
  | [] => ""
  | [s] => s
  | s :: rest => s ++ "/" ++ joinSlash rest

/-- CPython `urljoin` dot-segment resolution. -/
def resolveSegments (segments : List String) : List String :=
  let resolved := segments.foldl
    (fun acc seg =>
      if seg = ".." then acc.dropLast
      else if seg = "." then acc
      else acc ++ [seg]) []
  if segments.getLast? = some "." ∨ segments.getLast? = some ".." then
    resolved ++ [""]
  else resolved

/-- CPython `urllib.parse.urljoin` (for schemes that use relative
resolution and a netloc, which covers `http`/`https` as used by the
crawler). -/
def pyUrljoin (base url : String) : String :=
  if base = "" then url
  else if url = "" then base
  else
    let b := pyUrlsplit base
    let u := pyUrlsplit url
    if u.scheme ≠ "" ∧ u.scheme ≠ b.scheme then url
    else
      let scheme := if u.scheme ≠ "" then u.scheme else b.scheme
      if u.netloc ≠ "" then pyUrlunsplit scheme u.netloc u.path u.query u.fragment
      else
        let netloc := b.netloc
        if u.path = "" then
          let query := if u.query ≠ "" then u.query else b.query
          pyUrlunsplit scheme netloc b.path query u.fragment
        else
          let segments :=
            if pyStartswith u.path "/" then pySplitSlash u.path
            else
              let baseParts := pySplitSlash b.path
              let baseParts :=
                if baseParts.getLast? ≠ some "" then baseParts.dropLast else baseParts
              baseParts ++ pySplitSlash u.path
          let path := joinSlash (resolveSegments segments)
          let path := if path = "" then "/" else path
          pyUrlunsplit scheme netloc path u.query u.fragment

/-! ## Link extraction and discovery -/

/-- The asset extensions excluded by `seo_analyzer.extract_links`:
`re.search(r"\.(jpg|jpeg|png|gif|css|js|pdf|svg|ico|xml)$", path, re.I)`. -/
def assetExtsSeed : List String :=
  ["jpg", "jpeg", "png", "gif", "css", "js", "pdf", "svg", "ico", "xml"]

/-- The asset extensions excluded by the per-crawled-page discoverer in
`analysis.analyze_page` (adds `woff`, `woff2`, `ttf`, `eot`). -/
def assetExtsCrawl : List String :=
  ["jpg", "jpeg", "png", "gif", "css", "js", "pdf", "svg", "ico", "xml",
   "woff", "woff2", "ttf", "eot"]

/-- Case-insensitive end-anchored match of `\.(e₁|e₂|...)$` on a path. -/
def isAssetPath (exts : List String) (path : String) : Bool :=
  exts.any (fun e => pyEndswith (pyLower path) ("." ++ e))

/-- Python `set.add` on a set modelled as an insertion-ordered
duplicate-free list. -/
def setAdd (l : List String) (u : String) : List String :=
  if u ∈ l then l else l ++ [u]

structure LinksResult where
  total : Nat
  internal : Nat
  external : Nat
  internalUrls : List String
deriving Repr, DecidableEq

/-- One step of the `for link in links` loop of
`seo_analyzer.extract_links`; the accumulator is
`(internal, external, internal_urls)`. -/
def extractLinksStep (base_url base_domain : String)
    (acc : Nat × Nat × List String) (href : String) : Nat × Nat × List String :=
  if href = "" ∨ pyStartswith href "#" ∨ pyStartswith href "javascript:" then acc
  else
    let full := pyUrljoin base_url href
    let parsed := pyUrlsplit full
    if parsed.netloc = base_domain then
      if isAssetPath assetExtsSeed parsed.path then
        (acc.1 + 1, acc.2.1, acc.2.2)
      else
        (acc.1 + 1, acc.2.1, setAdd acc.2.2 full)
    else if pyStartswith href "http" then (acc.1, acc.2.1 + 1, acc.2.2)
    else acc

/-- Model of `seo_analyzer.extract_links`: classify anchors of the page (given by
their `href` attributes) as internal/external, and collect the internal
non-asset targets, capped at 25. -/
def extract_links (aHrefs : List String) (base_url : String) : LinksResult :=
  let base_domain := (pyUrlsplit base_url).netloc
  let acc := aHrefs.foldl (extractLinksStep base_url base_domain) (0, 0, [])
  { total := aHrefs.length, internal := acc.1, external := acc.2.1,
    internalUrls := acc.2.2.take 25 }

/-- The normalized URL built by the per-crawled-page discoverer:
`f"{parsed.scheme}://{parsed.netloc}{parsed.path}"` plus the query when
present — the fragment is dropped. -/
def cleanUrl (p : UrlParts) : String :=
  p.scheme ++ "://" ++ p.netloc ++ p.path ++
    (if p.query ≠ "" then "?" ++ p.query else "")

/-- One step of the link-discovery loop inside `analysis.analyze_page`. -/
def discoverStep (page_url base_domain : String)
    (urls : List String) (href : String) : List String :=
  if href = "" ∨ pyStartswith href "#" ∨ pyStartswith href "javascript:" then urls
  else
    let full := pyUrljoin page_url href
    let parsed := pyUrlsplit full
    if parsed.netloc = base_domain ∧ ¬ isAssetPath assetExtsCrawl parsed.path then
      setAdd urls (cleanUrl parsed)
    else urls

/-- The link-discovery loop inside `analysis.analyze_page`: same-host
non-asset links, normalized to scheme+host+path+query with the fragment
dropped, collected into a set (no size cap). -/
def discover_links (aHrefs : List String) (page_url : String) : List String :=
  let base_domain := (pyUrlsplit page_url).netloc
  aHrefs.foldl (discoverStep page_url base_domain) []


/-! ### Properties of link extraction (C2) -/

lemma foldl_inv {α β : Type} {P : α → Prop} (f : α → β → α) (l : List β)
    (init : α) (h0 : P init) (hstep : ∀ a b, b ∈ l → P a → P (f a b)) :
    P (l.foldl f init) := by
  induction l generalizing init with
  | nil => exact h0
  | cons b t ih =>
    exact ih _ (hstep _ _ (by simp) h0)
      (fun a b' hb' ha => hstep a b' (by simp [hb']) ha)

lemma setAdd_nodup {l : List String} {u : String} (h : l.Nodup) :
    (setAdd l u).Nodup := by
  unfold setAdd
  split
  · exact h
  · next hu => simp [List.nodup_append, h, hu]

lemma setAdd_mem_elim {l : List String} {u v : String}
    (h : v ∈ setAdd l u) : v ∈ l ∨ v = u := by
  unfold setAdd at h
  split at h
  · exact Or.inl h
  · rcases List.mem_append.mp h with h | h
    · exact Or.inl h
    · exact Or.inr (by simpa using h)

lemma splitOnceChar_fst_not_mem (sep : Char) (l : List Char) :
    sep ∉ (splitOnceChar sep l).1 := by
  induction l with
  | nil => simp [splitOnceChar]
  | cons c cs ih =>
    by_cases h : c = sep
    · simp [splitOnceChar, h]
    · simp only [splitOnceChar, if_neg h]
      intro hmem
      rcases List.mem_cons.mp hmem with h' | h'
      · exact h h'.symm
      · exact ih h'

lemma splitOnceChar_fst_subset (sep : Char) (l : List Char) :
    ∀ c ∈ (splitOnceChar sep l).1, c ∈ l := by
  induction l with
  | nil => simp [splitOnceChar]
  | cons a cs ih =>
    by_cases h : a = sep
    · simp [splitOnceChar, h]
    · simp only [splitOnceChar, if_neg h]
      intro c hc
      rcases List.mem_cons.mp hc with h' | h'
      · simp [h']
      · exact List.mem_cons_of_mem _ (ih c h')

/-- Model of `Char.toLower` can only produce `'#'` from `'#'` itself. -/
lemma toLower_eq_hash {c : Char} (h : Char.toLower c = '#') : c = '#' := by
  have h' : (if c.toNat ≥ 65 ∧ c.toNat ≤ 90 then Char.ofNat (c.toNat + 32) else c) = '#' := h
  by_cases hc : c.toNat ≥ 65 ∧ c.toNat ≤ 90
  · rw [if_pos hc] at h'
    exfalso
    have hv : (c.toNat + 32).isValidChar := Or.inl (by omega)
    have ht : (Char.ofNat (c.toNat + 32)).toNat = c.toNat + 32 := by
      rw [Char.ofNat, dif_pos hv]
      simp [Char.ofNatAux, Char.toNat, UInt32.toNat, BitVec.toNat_ofNatLt]
    rw [h'] at ht
    have h35 : ('#').toNat = 35 := rfl
    omega
  · rwa [if_neg hc] at h' 


lemma splitOnceChar_snd_subset (sep : Char) (l : List Char) {b : List Char}
    (h : (splitOnceChar sep l).2 = some b) : ∀ c ∈ b, c ∈ l := by
  induction l generalizing b with
  | nil => simp [splitOnceChar] at h
  | cons a cs ih =>
    by_cases ha : a = sep
    · simp only [splitOnceChar, if_pos ha] at h
      cases h
      intro c hc
      exact List.mem_cons_of_mem _ hc
    · simp only [splitOnceChar, if_neg ha] at h
      intro c hc
      exact List.mem_cons_of_mem _ (ih h c hc)

lemma scheme_no_hash (cs : List Char) : '#' ∉ (splitScheme cs).1 := by
  unfold splitScheme
  split
  · next pre after heq =>
    split
    · next hcond =>
      intro hmem
      rcases List.mem_map.mp hmem with ⟨c, hc, hlow⟩
      have hceq : c = '#' := toLower_eq_hash hlow
      subst hceq
      have := List.all_eq_true.mp hcond.2.2 _ hc
      simp [isSchemeChar] at this
    · simp
  · simp

lemma netloc_no_hash (rest : List Char) : '#' ∉ (splitNetloc rest).1 := by
  unfold splitNetloc
  split
  · intro hmem
    have := List.mem_takeWhile_imp hmem
    simp at this
  · simp

lemma path_no_hash (l : List Char) :
    '#' ∉ (splitOnceChar '?' (splitOnceChar '#' l).1).1 := by
  intro hmem
  exact splitOnceChar_fst_not_mem '#' l (splitOnceChar_fst_subset '?' _ _ hmem)

lemma query_no_hash (l : List Char) :
    '#' ∉ ((splitOnceChar '?' (splitOnceChar '#' l).1).2.getD []) := by
  rcases h : (splitOnceChar '?' (splitOnceChar '#' l).1).2 with _ | b
  · simp
  · simp only [h, Option.getD_some]
    intro hc
    exact splitOnceChar_fst_not_mem '#' l (splitOnceChar_snd_subset '?' _ h _ hc)

/-- The scheme, netloc, path and query produced by `pyUrlsplit` never
contain `'#'`: the fragment is split off before path and query are
formed, the netloc scan stops at `'#'`, and scheme characters exclude it. -/
lemma pyUrlsplit_no_hash (s : String) :
    '#' ∉ (pyUrlsplit s).scheme.data ∧ '#' ∉ (pyUrlsplit s).netloc.data ∧
    '#' ∉ (pyUrlsplit s).path.data ∧ '#' ∉ (pyUrlsplit s).query.data :=
  ⟨scheme_no_hash _, netloc_no_hash _, path_no_hash _, query_no_hash _⟩

/-- Model of `cleanUrl` of any `pyUrlsplit` result contains no `'#'`: the
normalized URL has its fragment dropped. -/
lemma cleanUrl_no_hash (s : String) : '#' ∉ (cleanUrl (pyUrlsplit s)).data := by
  obtain ⟨h1, h2, h3, h4⟩ := pyUrlsplit_no_hash s
  unfold cleanUrl
  intro hmem
  simp only [append_data, List.mem_append] at hmem
  rcases hmem with ((((h | h) | h) | h) | h)
  · exact h1 h
  · exact absurd h (by decide)
  · exact h2 h
  · exact h3 h
  · split at h
    · rcases (by simpa [append_data] using h : '#' ∈ "?".data ∨ '#' ∈ (pyUrlsplit s).query.data) with h | h
      · exact absurd h (by decide)
      · exact h4 h
    · simp at h

lemma extract_links_inv (aHrefs : List String) (base_url : String) :
    (extract_links aHrefs base_url).internalUrls.length ≤ 25 ∧
    (extract_links aHrefs base_url).internalUrls.Nodup ∧
    ∀ v ∈ (extract_links aHrefs base_url).internalUrls,
      isAssetPath assetExtsSeed (pyUrlsplit v).path = false := by
  have hfold :
      (aHrefs.foldl (extractLinksStep base_url (pyUrlsplit base_url).netloc)
        (0, 0, [])).2.2.Nodup ∧
      ∀ v ∈ (aHrefs.foldl (extractLinksStep base_url (pyUrlsplit base_url).netloc)
        (0, 0, [])).2.2, isAssetPath assetExtsSeed (pyUrlsplit v).path = false := by
    apply foldl_inv (P := fun (acc : Nat × Nat × List String) => acc.2.2.Nodup ∧
      ∀ v ∈ acc.2.2, isAssetPath assetExtsSeed (pyUrlsplit v).path = false)
    · exact ⟨List.nodup_nil, by simp⟩
    · intro a href _ ha
      by_cases h1 : href = "" ∨ pyStartswith href "#" = true ∨
          pyStartswith href "javascript:" = true
      · simpa [extractLinksStep, h1] using ha
      · by_cases hn : (pyUrlsplit (pyUrljoin base_url href)).netloc
            = (pyUrlsplit base_url).netloc
        · by_cases hasset :
              isAssetPath assetExtsSeed (pyUrlsplit (pyUrljoin base_url href)).path = true
          · simpa [extractLinksStep, h1, hn, hasset] using ha
          · have hstep : extractLinksStep base_url (pyUrlsplit base_url).netloc a href
                = (a.1 + 1, a.2.1, setAdd a.2.2 (pyUrljoin base_url href)) := by
              simp [extractLinksStep, h1, hn, hasset]
            rw [hstep]
            refine ⟨setAdd_nodup ha.1, ?_⟩
            intro v hv
            rcases setAdd_mem_elim hv with hv | hv
            · exact ha.2 v hv
            · subst hv
              simpa using hasset
        · by_cases hh : pyStartswith href "http" = true
          · simpa [extractLinksStep, h1, hn, hh] using ha
          · simpa [extractLinksStep, h1, hn, hh] using ha
  refine ⟨?_, ?_, ?_⟩
  · exact List.length_take_le _ _
  · exact hfold.1.sublist (List.take_sublist _ _)
  · intro v hv
    exact hfold.2 v (List.take_subset _ _ hv)

lemma discover_links_inv (aHrefs : List String) (page_url : String) :
    (discover_links aHrefs page_url).Nodup ∧
    ∀ v ∈ discover_links aHrefs page_url,
      '#' ∉ v.data ∧
      ∃ href ∈ aHrefs,
        v = cleanUrl (pyUrlsplit (pyUrljoin page_url href)) ∧
        (pyUrlsplit (pyUrljoin page_url href)).netloc = (pyUrlsplit page_url).netloc ∧
        isAssetPath assetExtsCrawl (pyUrlsplit (pyUrljoin page_url href)).path = false := by
  unfold discover_links
  apply foldl_inv (P := fun (urls : List String) => urls.Nodup ∧ ∀ v ∈ urls, '#' ∉ v.data ∧
    ∃ href ∈ aHrefs,
      v = cleanUrl (pyUrlsplit (pyUrljoin page_url href)) ∧
      (pyUrlsplit (pyUrljoin page_url href)).netloc = (pyUrlsplit page_url).netloc ∧
      isAssetPath assetExtsCrawl (pyUrlsplit (pyUrljoin page_url href)).path = false)
  · exact ⟨List.nodup_nil, by simp⟩
  · intro a href hhref ha
    by_cases h1 : href = "" ∨ pyStartswith href "#" = true ∨
        pyStartswith href "javascript:" = true
    · simpa [discoverStep, h1] using ha
    · by_cases hc : (pyUrlsplit (pyUrljoin page_url href)).netloc
          = (pyUrlsplit page_url).netloc ∧
          ¬ isAssetPath assetExtsCrawl (pyUrlsplit (pyUrljoin page_url href)).path = true
      · have hstep : discoverStep page_url (pyUrlsplit page_url).netloc a href
            = setAdd a (cleanUrl (pyUrlsplit (pyUrljoin page_url href))) := by
          simp [discoverStep, h1, hc.1, hc.2]
        rw [hstep]
        refine ⟨setAdd_nodup ha.1, ?_⟩
        intro v hv
        rcases setAdd_mem_elim hv with hv | hv
        · exact ha.2 v hv
        · subst hv
          refine ⟨cleanUrl_no_hash _, href, hhref, rfl, hc.1, ?_⟩
          simpa using hc.2
      · have hstep : discoverStep page_url (pyUrlsplit page_url).netloc a href = a := by
          simp only [discoverStep]
          rw [if_neg h1, if_neg hc]
        rw [hstep]
        exact ha

/-- C2 (amended): both collectors deduplicate their URL sets, but they
differ from the claim as follows.  The seed-page extractor
`extract_links` excludes only the ten asset extensions
`jpg,jpeg,png,gif,css,js,pdf,svg,ico,xml` (not `woff,woff2,ttf,eot`),
stores the resolved URL as-is (fragment kept), and caps the set at 25.
The per-crawled-page discoverer excludes all fourteen extensions and
normalizes every entry to scheme+host+path+query with the fragment
dropped (no `'#'` ever occurs), but applies no cap. -/
theorem link_collection_amended (aHrefs : List String) (baseUrl : String) :
    ((extract_links aHrefs baseUrl).internalUrls.length ≤ 25 ∧
     (extract_links aHrefs baseUrl).internalUrls.Nodup ∧
     ∀ v ∈ (extract_links aHrefs baseUrl).internalUrls,
       isAssetPath assetExtsSeed (pyUrlsplit v).path = false) ∧
    ((discover_links aHrefs baseUrl).Nodup ∧
     ∀ v ∈ discover_links aHrefs baseUrl,
       '#' ∉ v.data ∧
       ∃ href ∈ aHrefs,
         v = cleanUrl (pyUrlsplit (pyUrljoin baseUrl href)) ∧
         (pyUrlsplit (pyUrljoin baseUrl href)).netloc = (pyUrlsplit baseUrl).netloc ∧
         isAssetPath assetExtsCrawl (pyUrlsplit (pyUrljoin baseUrl href)).path = false) :=
  ⟨extract_links_inv aHrefs baseUrl, discover_links_inv aHrefs baseUrl⟩

/-- 26 distinct same-site relative links, used to exhibit the missing cap
of the per-crawled-page discoverer. -/
def manyHrefs : List String :=
  ["/pa", "/pb", "/pc", "/pd", "/pe", "/pf", "/pg", "/ph", "/pi", "/pj",
   "/pk", "/pl", "/pm", "/pn", "/po", "/pp", "/pq", "/pr", "/ps", "/pt",
   "/pu", "/pv", "/pw", "/px", "/py", "/pz"]

set_option maxRecDepth 20000 in
/-- C2 (counterexample): the claim fails on the code.  The seed-page
extractor admits a `.woff` asset link and keeps a URL's fragment, and the
per-crawled-page discoverer returns 26 > 25 URLs when 26 distinct links
are present. -/
theorem link_collection_claim_counterexample :
    "https://example.com/font.woff" ∈
      (extract_links ["https://example.com/font.woff", "https://example.com/page#sec"]
        "https://example.com/").internalUrls ∧
    "https://example.com/page#sec" ∈
      (extract_links ["https://example.com/font.woff", "https://example.com/page#sec"]
        "https://example.com/").internalUrls ∧
    pyEndswith "https://example.com/font.woff" ".woff" = true ∧
    '#' ∈ "https://example.com/page#sec".data ∧
    ¬ (discover_links manyHrefs "https://example.com/").length ≤ 25 := by
  decide

/-! ## The parsed document (`BeautifulSoup`) and signal extraction

`Soup` records the parse-tree queries performed by `seo_analyzer.py`:
the first `<title>`'s string, the `<meta>` tags (their `name`,
`property`, `charset` and `content` attributes), the `<link>` tags, the
heading texts with their levels in document order, the `<img>` tags, the
`href` of every `<a href>`, and the text content left after the
non-content tags (`script,style,noscript,iframe,code,pre,svg,link,meta`)
are removed (as used by `extract_keywords`). -/

structure MetaTag where
  name : Option String
  property : Option String
  charsetAttr : Option String
  content : Option String
deriving Repr, DecidableEq

structure LinkTag where
  rel : Option String
  href : Option String
deriving Repr, DecidableEq

structure ImgTag where
  src : Option String
  alt : Option String
deriving Repr, DecidableEq

structure Soup where
  titleString : Option String
  metas : List MetaTag
  linkTags : List LinkTag
  hTexts : List (Nat × String)
  imgs : List ImgTag
  aHrefs : List String
  contentText : String
deriving Repr, DecidableEq

/-- Model of `soup.find("meta", attrs={"name": n})`. -/
def findMetaByName (soup : Soup) (n : String) : Option MetaTag :=
  soup.metas.find? (fun m => m.name = some n)

/-- Model of `soup.find("meta", attrs={"property": n})`. -/
def findMetaByProp (soup : Soup) (n : String) : Option MetaTag :=
  soup.metas.find? (fun m => m.property = some n)

/-- Model of `soup.title.string.strip() if soup.title and soup.title.string else
None` — the expression used identically in `extract_seo_data` and
`extract_meta_tags`. -/
def soupTitle (soup : Soup) : Option String :=
  match soup.titleString with
  | some s => if s ≠ "" then some (pyStrip s) else none
  | none => none

/-- Model of `get_meta` of `extract_meta_tags`: `find(name=n) or find(property=n)`,
then `.get("content")`. -/
def getMetaNP (soup : Soup) (n : String) : Option String :=
  match findMetaByName soup n <|> findMetaByProp soup n with
  | some tag => tag.content
  | none => none

/-- Model of `get_meta` of `extract_social_tags`: property first, then name. -/
def getMetaPN (soup : Soup) (n : String) : Option String :=
  match findMetaByProp soup n <|> findMetaByName soup n with
  | some tag => tag.content
  | none => none

structure MetaResult where
  title : Option String
  description : Option String
  keywords : Option String
  robots : Option String
  canonical : Option String
  charset : String
  viewport : Option String
deriving Repr, DecidableEq

/-- Model of `seo_analyzer.extract_meta_tags`. -/
def extract_meta_tags (soup : Soup) : MetaResult :=
  let canonical : Option String :=
    match soup.linkTags.find? (fun l => l.rel = some "canonical") with
    | some tag => tag.href
    | none => none
  let charset : Option String :=
    match soup.metas.find? (fun m => m.charsetAttr.isSome) with
    | some tag => tag.charsetAttr
    | none => none
  { title := soupTitle soup,
    description := getMetaNP soup "description",
    keywords := getMetaNP soup "keywords",
    robots := getMetaNP soup "robots",
    canonical := canonical,
    charset :=
      match charset with
      | some v => if v ≠ "" then v else "UTF-8"
      | none => "UTF-8",
    viewport := getMetaNP soup "viewport" }

structure SocialResult where
  ogTitle : Option String
  ogDescription : Option String
  ogImage : Option String
  twitterCard : Option String
  twitterTitle : Option String
  twitterDescription : Option String
  twitterImage : Option String
deriving Repr, DecidableEq

/-- Model of `seo_analyzer.extract_social_tags`. -/
def extract_social_tags (soup : Soup) : SocialResult :=
  { ogTitle := getMetaPN soup "og:title",
    ogDescription := getMetaPN soup "og:description",
    ogImage := getMetaPN soup "og:image",
    twitterCard := getMetaPN soup "twitter:card",
    twitterTitle := getMetaPN soup "twitter:title",
    twitterDescription := getMetaPN soup "twitter:description",
    twitterImage := getMetaPN soup "twitter:image" }

/-- Model of `[h.get_text(strip=True) for h in soup.find_all(f"h{level}")]`. -/
def headingTexts (soup : Soup) (level : Nat) : List String :=
  (soup.hTexts.filter (fun p => p.1 = level)).map (fun p => p.2)

structure HeadingsResult where
  h1 : List String
  h2 : List String
  h3 : List String
  h4 : List String
  h5 : List String
  h6 : List String
deriving Repr, DecidableEq

/-- Model of `seo_analyzer.extract_headings`. -/
def extract_headings (soup : Soup) : HeadingsResult :=
  { h1 := headingTexts soup 1, h2 := headingTexts soup 2,
    h3 := headingTexts soup 3, h4 := headingTexts soup 4,
    h5 := headingTexts soup 5, h6 := headingTexts soup 6 }

structure ImgDetail where
  src : String
  alt : String
deriving Repr, DecidableEq

structure ImagesResult where
  total : Nat
  withAlt : Nat
  withoutAlt : Nat
  details : List ImgDetail
deriving Repr, DecidableEq

/-- Model of `seo_analyzer.extract_images`. -/
def extract_images (soup : Soup) : ImagesResult :=
  { total := soup.imgs.length,
    withAlt := (soup.imgs.filter (fun i => pyTruthy i.alt)).length,
    withoutAlt := (soup.imgs.filter (fun i => !pyTruthy i.alt)).length,
    details := (soup.imgs.take 10).map
      (fun i => { src := i.src.getD "unknown", alt := i.alt.getD "" }) }

/-! ### Word counting (`extract_keywords`) -/

/-- A character matched by `[a-z]`. -/
def isAZ (c : Char) : Bool :=
  'a' ≤ c && c ≤ 'z'

/-- A regex word character (`\w`, ASCII model): letters, digits, `_`. -/
def isWordChar (c : Char) : Bool :=
  c.isAlpha || c.isDigit || c = '_'

/-- Model of `re.findall(r"\b[a-z]{3,}\b", text)` on already-lowercased text:
maximal `[a-z]` runs of length ≥ 3 whose neighbours are not word
characters.  `flag` records whether the boundary before the current run
holds; `run` is the current (reversed) run. -/
def findWordTokens : List Char → Bool → List Char → List String
  | [], flag, run =>
    if run.length ≥ 3 ∧ flag then [⟨run.reverse⟩] else []
  | c :: cs, flag, run =>
    if isAZ c then findWordTokens cs flag (c :: run)
    else
      (if run.length ≥ 3 ∧ flag ∧ isWordChar c = false then [(⟨run.reverse⟩ : String)] else [])
        ++ findWordTokens cs (!isWordChar c) []

/-- The stop-word set `STOP_WORDS` of `seo_analyzer.py` (a Python set
literal; duplicates in the literal are harmless for membership). -/
def STOP_WORDS : List String :=
  ["a", "about", "above", "after", "again", "against", "all", "am", "an", "and", "any", "are", "as", "at",
   "be", "because", "been", "before", "being", "below", "between", "both", "but", "by", "cannot", "could",
   "did", "do", "does", "doing", "down", "during", "each", "few", "for", "from", "further", "had", "has",
   "have", "having", "he", "her", "here", "hers", "herself", "him", "himself", "his", "how", "i", "if",
   "in", "into", "is", "it", "its", "itself", "me", "more", "most", "my", "myself", "no", "nor", "not",
   "of", "off", "on", "once", "only", "or", "other", "ought", "our", "ours", "ourselves", "out", "over",
   "own", "same", "she", "should", "so", "some", "such", "than", "that", "the", "their", "theirs", "them",
   "themselves", "then", "there", "these", "they", "this", "those", "through", "to", "too", "under",
   "until", "up", "very", "was", "we", "were", "what", "when", "where", "which", "while", "who", "whom",
   "why", "with", "would", "you", "your", "yours", "yourself", "yourselves",
   "site", "website", "page", "copyright", "rights", "reserved", "loading", "menu", "home", "contact",
   "login", "sign", "up", "click", "here", "read", "more", "view", "details",
   "const", "var", "let", "function", "class", "import", "export", "return", "true", "false", "null",
   "undefined", "async", "await", "console", "log", "window", "document"]

/-- Python `s.isdigit()` (ASCII model). -/
def pyIsDigitStr (s : String) : Bool :=
  s ≠ "" && s.data.all Char.isDigit

/-- The `word_count` computed by `seo_analyzer.extract_keywords`:
tokenize the lowercased content text with `\b[a-z]{3,}\b`, drop stop
words and digit strings, and count.  (The top-10 keyword list that
`extract_keywords` also returns is not modelled: no verified property
concerns it.) -/
def extract_word_count (contentText : String) : Nat :=
  ((findWordTokens (pyLower contentText).data true []).filter
    (fun w => !STOP_WORDS.contains w && !pyIsDigitStr w)).length

/-! ## The two scorers -/

structure Issue where
  type : String
  label : String
  description : String
  severity : String
deriving Repr, DecidableEq

/-- The `(type, label, severity)` triple of an issue — the fields the two
scorers are compared on (the free-text `description` differs between
them for some rules). -/
def issueKey (i : Issue) : String × String × String :=
  (i.type, i.label, i.severity)

/-- Title checks of `calculate_seo_score` (deduction, issues). -/
def titleCheck (title : Option String) : Nat × List Issue :=
  if ¬ pyTruthy title then
    (20, [{ type := "title", label := "Missing Title Tag",
            description := "The page title is missing.", severity := "High" }])
  else if (title.getD "").length > 60 then
    (5, [{ type := "title", label := "Title Too Long",
           description := "Title is " ++ toString (title.getD "").length
             ++ " chars (recommended: < 60).",
           severity := "Medium" }])
  else if (title.getD "").length < 10 then
    (5, [{ type := "title", label := "Title Too Short",
           description := "Title is too short to be descriptive.",
           severity := "Medium" }])
  else (0, [])

/-- Description checks of `calculate_seo_score`. -/
def descriptionCheck (description : Option String) : Nat × List Issue :=
  if ¬ pyTruthy description then
    (20, [{ type := "description", label := "Missing Meta Description",
            description := "Meta description is missing.", severity := "High" }])
  else if (description.getD "").length > 160 then
    (3, [{ type := "description", label := "Description Too Long",
           description := "Meta description exceeds 160 characters.",
           severity := "Low" }])
  else if (description.getD "").length < 50 then
    (5, [{ type := "description", label := "Description Too Short",
           description := "Meta description is too short.", severity := "Medium" }])
  else (0, [])

/-- H1 checks of `calculate_seo_score`. -/
def h1Check (h1s : List String) : Nat × List Issue :=
  if h1s = [] then
    (15, [{ type := "h1", label := "Missing H1 Heading",
            description := "No H1 tag found.", severity := "High" }])
  else if h1s.length > 1 then
    (5, [{ type := "h1", label := "Multiple H1 Tags",
           description := "Multiple H1 tags found.", severity := "Medium" }])
  else (0, [])

/-- Image-alt checks of `calculate_seo_score`. -/
def imagesCheck (withoutAlt : Nat) : Nat × List Issue :=
  if withoutAlt > 0 then
    (min 10 (withoutAlt * 2),
     [{ type := "images", label := "Missing Alt Text",
        description := toString withoutAlt ++ " images are missing alt text.",
        severity := "Medium" }])
  else (0, [])

/-- Content-length check of `calculate_seo_score`. -/
def contentCheck (word_count : Nat) : Nat × List Issue :=
  if word_count < 300 then
    (10, [{ type := "content", label := "Thin Content",
            description := "Word count is " ++ toString word_count
              ++ " (recommended: > 300).",
            severity := "Medium" }])
  else (0, [])

/-- Canonical check of `calculate_seo_score`. -/
def canonicalCheck (canonical : Option String) : Nat × List Issue :=
  if ¬ pyTruthy canonical then
    (5, [{ type := "canonical", label := "Missing Canonical Tag",
           description := "Canonical tag is missing.", severity := "Low" }])
  else (0, [])

/-- Model of `seo_analyzer.calculate_seo_score`: start at 100, apply the
deductions in the fixed order title → description → h1 → images →
content → canonical, clamp to `[0, 100]`.  (The `links` argument is
passed but, as in the source, never used.) -/
def calculate_seo_score (meta : MetaResult) (headings : HeadingsResult)
    (images : ImagesResult) (links : LinksResult) (word_count : Nat) :
    Int × List Issue :=
  let t := titleCheck meta.title
  let d := descriptionCheck meta.description
  let h := h1Check headings.h1
  let i := imagesCheck images.withoutAlt
  let c := contentCheck word_count
  let k := canonicalCheck meta.canonical
  (max 0 (min 100 ((100 : Int) - (t.1 + d.1 + h.1 + i.1 + c.1 + k.1 : Nat))),
   t.2 ++ d.2 ++ h.2 ++ i.2 ++ c.2 ++ k.2)

/-- Title checks of `extract_seo_data` (same conditions as
`titleCheck`, different text for the missing-title issue). -/
def esdTitleCheck (title : Option String) : Nat × List Issue :=
  if ¬ pyTruthy title then
    (20, [{ type := "title", label := "Missing Title Tag",
            description := "The page title is missing, which is critical for SEO.",
            severity := "High" }])
  else if (title.getD "").length > 60 then
    (5, [{ type := "title", label := "Title Too Long",
           description := "Title is " ++ toString (title.getD "").length
             ++ " chars (recommended: < 60).",
           severity := "Medium" }])
  else if (title.getD "").length < 10 then
    (5, [{ type := "title", label := "Title Too Short",
           description := "Title is too short to be descriptive.",
           severity := "Medium" }])
  else (0, [])

/-- Description checks of `extract_seo_data`: no too-short rule. -/
def esdDescCheck (description : Option String) : Nat × List Issue :=
  if ¬ pyTruthy description then
    (20, [{ type := "description", label := "Missing Meta Description",
            description := "Meta description is missing, impacting click-through rates.",
            severity := "High" }])
  else if (description.getD "").length > 160 then
    (3, [{ type := "description", label := "Description Too Long",
           description := "Meta description exceeds 160 characters.",
           severity := "Low" }])
  else (0, [])

/-- H1 checks of `extract_seo_data`. -/
def esdH1Check (h1_tags : List String) : Nat × List Issue :=
  if h1_tags = [] then
    (15, [{ type := "h1", label := "Missing H1 Heading",
            description := "No H1 tag found. Use one H1 for the main title.",
            severity := "High" }])
  else if h1_tags.length > 1 then
    (5, [{ type := "h1", label := "Multiple H1 Tags",
           description := "Found " ++ toString h1_tags.length
             ++ " H1 tags. Use only one per page.",
           severity := "Medium" }])
  else (0, [])

/-- Image-alt checks of `extract_seo_data`. -/
def esdImagesCheck (images_without_alt : Nat) : Nat × List Issue :=
  if images_without_alt > 0 then
    (min 10 (images_without_alt * 2),
     [{ type := "images", label := "Missing Alt Text",
        description := toString images_without_alt ++ " images are missing alt text.",
        severity := "Medium" }])
  else (0, [])

/-- The description read by `extract_seo_data`:
`soup.find("meta", attrs={"name": "description"})` only — unlike
`extract_meta_tags`, the `property` attribute is not consulted. -/
def esdDescription (soup : Soup) : Option String :=
  match findMetaByName soup "description" with
  | some tag => tag.content
  | none => none

structure ExtractSeoResult where
  title : Option String
  description : Option String
  h1_tags : List String
  score : Int
  issue_count : Nat
  issue_details : List Issue
deriving Repr, DecidableEq

/-- Model of `seo_analyzer.extract_seo_data`: the quick per-crawled-page scorer.
It implements only the title, description-missing/too-long, h1 and
image-alt rules, and clamps the score from below. -/
def extract_seo_data (soup : Soup) (url : String) : ExtractSeoResult :=
  let title := soupTitle soup
  let description := esdDescription soup
  let h1_tags := headingTexts soup 1
  let images_without_alt := (soup.imgs.filter (fun i => !pyTruthy i.alt)).length
  let t := esdTitleCheck title
  let d := esdDescCheck description
  let h := esdH1Check h1_tags
  let i := esdImagesCheck images_without_alt
  let issues := t.2 ++ d.2 ++ h.2 ++ i.2
  { title := title, description := description, h1_tags := h1_tags,
    score := max 0 ((100 : Int) - (t.1 + d.1 + h.1 + i.1 : Nat)),
    issue_count := issues.length,
    issue_details := issues }

structure PageData where
  url : String
  status : String
  score : Int
  issues : Nat
  title : String
  issueDetails : Option (List Issue)
deriving Repr, DecidableEq

structure AnalyzeResult where
  url : String
  meta : MetaResult
  social : SocialResult
  headings : HeadingsResult
  images : ImagesResult
  links : LinksResult
  wordCount : Nat
  score : Int
  issues : List Issue
  crawledPages : List PageData
deriving Repr, DecidableEq

/-- Model of `seo_analyzer.analyze_html`: full signal extraction plus
`calculate_seo_score`; `crawledPages` starts empty (overwritten by a
real crawl).  (The top-10 keyword list is not modelled.) -/
def analyze_html (soup : Soup) (url : String) : AnalyzeResult :=
  let meta := extract_meta_tags soup
  let social := extract_social_tags soup
  let headings := extract_headings soup
  let images := extract_images soup
  let links := extract_links soup.aHrefs url
  let word_count := extract_word_count soup.contentText
  let sc := calculate_seo_score meta headings images links word_count
  { url := url, meta := meta, social := social, headings := headings,
    images := images, links := links, wordCount := word_count,
    score := sc.1, issues := sc.2, crawledPages := [] }

/-! ### Scoring-range properties (C3, C9, C4) -/

lemma calculate_seo_score_fst (meta : MetaResult) (headings : HeadingsResult)
    (images : ImagesResult) (links : LinksResult) (word_count : Nat) :
    (calculate_seo_score meta headings images links word_count).1
      = max 0 (min 100 ((100 : Int) -
          ((titleCheck meta.title).1 + (descriptionCheck meta.description).1
            + (h1Check headings.h1).1 + (imagesCheck images.withoutAlt).1
            + (contentCheck word_count).1 + (canonicalCheck meta.canonical).1 : Nat))) :=
  rfl

lemma calculate_seo_score_snd (meta : MetaResult) (headings : HeadingsResult)
    (images : ImagesResult) (links : LinksResult) (word_count : Nat) :
    (calculate_seo_score meta headings images links word_count).2
      = (titleCheck meta.title).2 ++ (descriptionCheck meta.description).2
        ++ (h1Check headings.h1).2 ++ (imagesCheck images.withoutAlt).2
        ++ (contentCheck word_count).2 ++ (canonicalCheck meta.canonical).2 :=
  rfl

lemma extract_seo_data_score (soup : Soup) (url : String) :
    (extract_seo_data soup url).score
      = max 0 ((100 : Int) -
          ((esdTitleCheck (soupTitle soup)).1 + (esdDescCheck (esdDescription soup)).1
            + (esdH1Check (headingTexts soup 1)).1
            + (esdImagesCheck ((soup.imgs.filter (fun i => !pyTruthy i.alt)).length)).1 : Nat)) :=
  rfl

lemma extract_seo_data_issues (soup : Soup) (url : String) :
    (extract_seo_data soup url).issue_details
      = (esdTitleCheck (soupTitle soup)).2 ++ (esdDescCheck (esdDescription soup)).2
        ++ (esdH1Check (headingTexts soup 1)).2
        ++ (esdImagesCheck ((soup.imgs.filter (fun i => !pyTruthy i.alt)).length)).2 :=
  rfl

/-- C3: both scorers return a score in `[0, 100]` for every input:
`calculate_seo_score` clamps with `max(0, min(100, score))`, and
`extract_seo_data` only deducts from 100 before clamping with
`max(0, score)`. -/
theorem scorer_range (meta : MetaResult) (headings : HeadingsResult)
    (images : ImagesResult) (links : LinksResult) (word_count : Nat)
    (soup : Soup) (url : String) :
    (0 ≤ (calculate_seo_score meta headings images links word_count).1 ∧
     (calculate_seo_score meta headings images links word_count).1 ≤ 100) ∧
    (0 ≤ (extract_seo_data soup url).score ∧
     (extract_seo_data soup url).score ≤ 100) := by
  constructor
  · rw [calculate_seo_score_fst]
    constructor
    · exact le_max_left 0 _
    · exact max_le (by norm_num) (min_le_left _ _)
  · rw [extract_seo_data_score]
    constructor
    · exact le_max_left 0 _
    · refine max_le (by norm_num) (sub_le_self _ ?_)
      positivity

lemma titleCheck_fst_le (t : Option String) : (titleCheck t).1 ≤ 20 := by
  unfold titleCheck
  split
  · norm_num
  · split
    · norm_num
    · split <;> norm_num

lemma descriptionCheck_fst_le (d : Option String) : (descriptionCheck d).1 ≤ 20 := by
  unfold descriptionCheck
  split
  · norm_num
  · split
    · norm_num
    · split <;> norm_num

lemma h1Check_fst_le (l : List String) : (h1Check l).1 ≤ 15 := by
  unfold h1Check
  split
  · norm_num
  · split <;> norm_num

lemma imagesCheck_fst_le (n : Nat) : (imagesCheck n).1 ≤ 10 := by
  unfold imagesCheck
  split
  · exact min_le_left _ _
  · simp

lemma contentCheck_fst_le (n : Nat) : (contentCheck n).1 ≤ 10 := by
  unfold contentCheck
  split <;> simp

lemma canonicalCheck_fst_le (c : Option String) : (canonicalCheck c).1 ≤ 5 := by
  unfold canonicalCheck
  split <;> simp

/-- C9: the deductions of `calculate_seo_score` total at most
`20 + 20 + 15 + 10 + 10 + 5 = 80`, so the returned score is at least 20
and the lower clamp is never binding. -/
theorem calculate_seo_score_ge_20 (meta : MetaResult) (headings : HeadingsResult)
    (images : ImagesResult) (links : LinksResult) (word_count : Nat) :
    20 ≤ (calculate_seo_score meta headings images links word_count).1 := by
  rw [calculate_seo_score_fst]
  have h1 := titleCheck_fst_le meta.title
  have h2 := descriptionCheck_fst_le meta.description
  have h3 := h1Check_fst_le headings.h1
  have h4 := imagesCheck_fst_le images.withoutAlt
  have h5 := contentCheck_fst_le word_count
  have h6 := canonicalCheck_fst_le meta.canonical
  have hmin : (20 : Int) ≤ min 100 ((100 : Int) -
      ((titleCheck meta.title).1 + (descriptionCheck meta.description).1
        + (h1Check headings.h1).1 + (imagesCheck images.withoutAlt).1
        + (contentCheck word_count).1 + (canonicalCheck meta.canonical).1 : Nat)) := by
    refine le_min (by norm_num) ?_
    omega
  exact le_trans hmin (le_max_right _ _)

/-- C4: with title, description and H1 all absent, `calculate_seo_score`
deducts 20 + 20 + 15 = 55 — a score of 45 before the image, content and
canonical deductions — and the first three issues are the High title,
High description and High h1 issues, in that order. -/
theorem missing_all_three_scores_45 (meta : MetaResult) (headings : HeadingsResult)
    (images : ImagesResult) (links : LinksResult) (word_count : Nat)
    (ht : pyTruthy meta.title = false) (hd : pyTruthy meta.description = false)
    (hh : headings.h1 = []) :
    (calculate_seo_score meta headings images links word_count).1
      = max 0 (min 100 ((45 : Int) -
          ((imagesCheck images.withoutAlt).1 + (contentCheck word_count).1
            + (canonicalCheck meta.canonical).1 : Nat))) ∧
    (calculate_seo_score meta headings images links word_count).2.take 3
      = [{ type := "title", label := "Missing Title Tag",
           description := "The page title is missing.", severity := "High" },
         { type := "description", label := "Missing Meta Description",
           description := "Meta description is missing.", severity := "High" },
         { type := "h1", label := "Missing H1 Heading",
           description := "No H1 tag found.", severity := "High" }] := by
  have e1 : titleCheck meta.title
      = (20, [{ type := "title", label := "Missing Title Tag",
                description := "The page title is missing.", severity := "High" }]) := by
    simp [titleCheck, ht]
  have e2 : descriptionCheck meta.description
      = (20, [{ type := "description", label := "Missing Meta Description",
                description := "Meta description is missing.", severity := "High" }]) := by
    simp [descriptionCheck, hd]
  have e3 : h1Check headings.h1
      = (15, [{ type := "h1", label := "Missing H1 Heading",
                description := "No H1 tag found.", severity := "High" }]) := by
    simp [h1Check, hh]
  constructor
  · rw [calculate_seo_score_fst, e1, e2, e3]
    have harith : (100 : Int) - ((20 + 20 + 15 + (imagesCheck images.withoutAlt).1
          + (contentCheck word_count).1 + (canonicalCheck meta.canonical).1 : Nat))
        = (45 : Int) - ((imagesCheck images.withoutAlt).1 + (contentCheck word_count).1
          + (canonicalCheck meta.canonical).1 : Nat) := by
      push_cast
      ring
    simp only [harith]
  · rw [calculate_seo_score_snd, e1, e2, e3]
    simp [List.take]

/-! ### Agreement of the two scorers (C1) -/

lemma titleParts_agree (t : Option String) :
    (titleCheck t).1 = (esdTitleCheck t).1 ∧
    (titleCheck t).2.map issueKey = (esdTitleCheck t).2.map issueKey := by
  unfold titleCheck esdTitleCheck
  split
  · simp [issueKey]
  · split
    · simp [issueKey]
    · split <;> simp [issueKey]

lemma descParts_agree (d : Option String)
    (h2 : pyTruthy d = true →
      (d.getD "").length > 160 ∨ 50 ≤ (d.getD "").length) :
    (descriptionCheck d).1 = (esdDescCheck d).1 ∧
    (descriptionCheck d).2.map issueKey = (esdDescCheck d).2.map issueKey := by
  unfold descriptionCheck esdDescCheck
  by_cases hT : pyTruthy d = true
  · simp only [hT, not_true, if_neg, if_false]
    by_cases hL : (d.getD "").length > 160
    · simp [hL, issueKey]
    · have h50 : ¬ (d.getD "").length < 50 := by
        rcases h2 hT with h | h
        · exact absurd h hL
        · omega
      simp [hL, h50]
  · simp [hT, issueKey]

lemma h1Parts_agree (l : List String) :
    (h1Check l).1 = (esdH1Check l).1 ∧
    (h1Check l).2.map issueKey = (esdH1Check l).2.map issueKey := by
  unfold h1Check esdH1Check
  split
  · simp [issueKey]
  · split <;> simp [issueKey]

lemma imagesParts_agree (n : Nat) : imagesCheck n = esdImagesCheck n := by
  unfold imagesCheck esdImagesCheck
  split <;> rfl

lemma analyze_html_score_eq (soup : Soup) (url : String) :
    (analyze_html soup url).score
      = (calculate_seo_score (extract_meta_tags soup) (extract_headings soup)
          (extract_images soup) (extract_links soup.aHrefs url)
          (extract_word_count soup.contentText)).1 :=
  rfl

lemma analyze_html_issues_eq (soup : Soup) (url : String) :
    (analyze_html soup url).issues
      = (calculate_seo_score (extract_meta_tags soup) (extract_headings soup)
          (extract_images soup) (extract_links soup.aHrefs url)
          (extract_word_count soup.contentText)).2 :=
  rfl

/-- C1 (amended): `extract_seo_data` implements only the title,
description-missing/too-long, h1 and image rules of
`calculate_seo_score`, and reads the description from
`<meta name=description>` only.  On pages where (i) the two description
lookups agree, (ii) the description-too-short rule does not fire,
(iii) the word count is at least 300 and (iv) a canonical link is
present, the two scorers return the same score and the same issue
sequence up to the `(type, label, severity)` key (the free-text
descriptions still differ for the missing-title, missing-description and
h1 issues). -/
theorem scorer_refinement_amended (soup : Soup) (url : String)
    (hdesc : getMetaNP soup "description" = esdDescription soup)
    (hshort : pyTruthy (esdDescription soup) = true →
      ((esdDescription soup).getD "").length > 160 ∨
        50 ≤ ((esdDescription soup).getD "").length)
    (hwc : 300 ≤ extract_word_count soup.contentText)
    (hcanon : pyTruthy (extract_meta_tags soup).canonical = true) :
    (analyze_html soup url).score = (extract_seo_data soup url).score ∧
    (analyze_html soup url).issues.map issueKey
      = (extract_seo_data soup url).issue_details.map issueKey := by
  have hmd : (extract_meta_tags soup).description = esdDescription soup := hdesc
  have hcontent : contentCheck (extract_word_count soup.contentText) = (0, []) := by
    unfold contentCheck
    rw [if_neg (by omega)]
  have hcanonz : canonicalCheck (extract_meta_tags soup).canonical = (0, []) := by
    unfold canonicalCheck
    rw [if_neg (by simp [hcanon])]
  obtain ⟨ts, ti⟩ := titleParts_agree (soupTitle soup)
  obtain ⟨ds, di⟩ := descParts_agree (esdDescription soup) hshort
  obtain ⟨hs1, hi1⟩ := h1Parts_agree (headingTexts soup 1)
  have is := imagesParts_agree ((soup.imgs.filter (fun i => !pyTruthy i.alt)).length)
  have hmt : (extract_meta_tags soup).title = soupTitle soup := rfl
  have hhh : (extract_headings soup).h1 = headingTexts soup 1 := rfl
  have hii : (extract_images soup).withoutAlt
      = (soup.imgs.filter (fun i => !pyTruthy i.alt)).length := rfl
  constructor
  · rw [analyze_html_score_eq, calculate_seo_score_fst, extract_seo_data_score,
      hmt, hmd, hhh, hii, hcontent, hcanonz, ts, ds, hs1, is]
    have hself : ((100 : Int) -
        ((esdTitleCheck (soupTitle soup)).1 + (esdDescCheck (esdDescription soup)).1
          + (esdH1Check (headingTexts soup 1)).1
          + (esdImagesCheck ((soup.imgs.filter (fun i => !pyTruthy i.alt)).length)).1
          + (0, ([] : List Issue)).1 + (0, ([] : List Issue)).1 : Nat)) ≤ 100 := by
      push_cast
      omega
    rw [min_eq_right hself]
    norm_num
  · rw [analyze_html_issues_eq, calculate_seo_score_snd, extract_seo_data_issues,
      hmt, hmd, hhh, hii, hcontent, hcanonz]
    simp only [List.map_append, ti, di, hi1, is]
    simp

/-- A page with no title, no metas, no headings, no images, no links and
no text. -/
def emptySoup : Soup :=
  { titleString := none, metas := [], linkTags := [], hTexts := [],
    imgs := [], aHrefs := [], contentText := "" }

set_option maxRecDepth 20000 in
/-- C1 (counterexample): on an empty page the seed-page pipeline scores
`100 − 20 − 20 − 15 − 10 − 5 = 30` with 5 issues (it applies the
thin-content and missing-canonical deductions) while `extract_seo_data`
scores `100 − 20 − 20 − 15 = 45` with 3 issues — the two scorers are not
equivalent on identical input. -/
theorem scorer_refinement_claim_counterexample :
    (analyze_html emptySoup "https://example.com/").score = 30 ∧
    (extract_seo_data emptySoup "https://example.com/").score = 45 ∧
    (analyze_html emptySoup "https://example.com/").issues.length = 5 ∧
    (extract_seo_data emptySoup "https://example.com/").issue_count = 3 ∧
    ¬ (analyze_html emptySoup "https://example.com/").score
        = (extract_seo_data emptySoup "https://example.com/").score := by
  decide

/-- A page satisfying all side conditions of the amended refinement:
description via `name=`, long enough; 300 content words; canonical
present. -/
def wSoup : Soup :=
  { titleString := some "A reasonably good page title",
    metas := [{ name := some "description", property := none, charsetAttr := none,
                content := some "This meta description is long enough to pass the fifty char rule." }],
    linkTags := [{ rel := some "canonical", href := some "https://example.com/" }],
    hTexts := [(1, "Welcome")],
    imgs := [],
    aHrefs := [],
    contentText := (List.replicate 300 "lorem ").foldl (fun a b => a ++ b) "" }

set_option maxRecDepth 100000 in
/-- Witness for the amended C1 theorem at a concrete page. -/
theorem scorer_refinement_amended_witness :
    (analyze_html wSoup "https://example.com/").score
        = (extract_seo_data wSoup "https://example.com/").score ∧
    (analyze_html wSoup "https://example.com/").issues.map issueKey
        = (extract_seo_data wSoup "https://example.com/").issue_details.map issueKey :=
  scorer_refinement_amended wSoup "https://example.com/" (by decide) (by decide)
    (by decide) (by decide)

/-- Witness for the C4 theorem at a concrete empty page. -/
theorem missing_all_three_scores_45_witness :
    (calculate_seo_score (extract_meta_tags emptySoup) (extract_headings emptySoup)
        (extract_images emptySoup) (extract_links [] "https://example.com/") 0).1
      = max 0 (min 100 ((45 : Int) -
          ((imagesCheck (extract_images emptySoup).withoutAlt).1 + (contentCheck 0).1
            + (canonicalCheck (extract_meta_tags emptySoup).canonical).1 : Nat))) ∧
    (calculate_seo_score (extract_meta_tags emptySoup) (extract_headings emptySoup)
        (extract_images emptySoup) (extract_links [] "https://example.com/") 0).2.take 3
      = [{ type := "title", label := "Missing Title Tag",
           description := "The page title is missing.", severity := "High" },
         { type := "description", label := "Missing Meta Description",
           description := "Meta description is missing.", severity := "High" },
         { type := "h1", label := "Missing H1 Heading",
           description := "No H1 tag found.", severity := "High" }] :=
  missing_all_three_scores_45 _ _ _ _ _ (by decide) (by decide) (by decide)

/-- Witness for the amended C2 theorem at a concrete page. -/
theorem link_collection_amended_witness :
    "https://example.com/page" ∈ discover_links ["/page#sec"] "https://example.com/" ∧
    '#' ∉ "https://example.com/page".data := by
  refine ⟨by decide, ?_⟩
  exact ((link_collection_amended ["/page#sec"] "https://example.com/").2.2
    "https://example.com/page" (by decide)).1

/-! ### Meta charset defaulting (C10) -/

/-- C10: `extract_meta_tags` always returns a non-empty charset; when no
meta tag carries a `charset` attribute, or the attribute's value is the
empty string, the charset is `"UTF-8"`.  Every other meta field can be
absent, as the empty page shows. -/
theorem extract_meta_charset_defaulted (soup : Soup) :
    (extract_meta_tags soup).charset ≠ "" ∧
    ((soup.metas.find? (fun m => m.charsetAttr.isSome) = none ∨
      ∃ tag, soup.metas.find? (fun m => m.charsetAttr.isSome) = some tag ∧
        tag.charsetAttr = some "") →
      (extract_meta_tags soup).charset = "UTF-8") ∧
    ((extract_meta_tags emptySoup).title = none ∧
     (extract_meta_tags emptySoup).description = none ∧
     (extract_meta_tags emptySoup).keywords = none ∧
     (extract_meta_tags emptySoup).robots = none ∧
     (extract_meta_tags emptySoup).canonical = none ∧
     (extract_meta_tags emptySoup).viewport = none) := by
  have hcs : (extract_meta_tags soup).charset
      = (match (match soup.metas.find? (fun m => m.charsetAttr.isSome) with
          | some tag => tag.charsetAttr
          | none => none) with
         | some v => if v ≠ "" then v else "UTF-8"
         | none => "UTF-8") := rfl
  refine ⟨?_, ?_, by decide⟩
  · rw [hcs]
    rcases hf : (match soup.metas.find? (fun m => m.charsetAttr.isSome) with
        | some tag => tag.charsetAttr
        | none => none : Option String) with _ | v
    · decide
    · by_cases hv : v = ""
      · subst hv
        decide
      · show (if v ≠ "" then v else "UTF-8") ≠ ""
        rw [if_pos hv]
        exact hv
  · intro h
    rw [hcs]
    rcases h with h | ⟨tag, hf, ha⟩
    · rw [h]
    · have hred : (match soup.metas.find? (fun m => m.charsetAttr.isSome) with
          | some tag => tag.charsetAttr
          | none => none : Option String) = some "" := by
        rw [hf, ← ha]
      rw [hred]
      simp

/-- Witness for the C10 theorem: with no charset declaration the
returned charset is exactly `"UTF-8"`. -/
theorem extract_meta_charset_defaulted_witness :
    (extract_meta_tags emptySoup).charset = "UTF-8" :=
  (extract_meta_charset_defaulted emptySoup).2.1 (Or.inl (by decide))

/-! ## The deep-scan crawl loop (`analysis.seo_analyze`)

The fetch layer is a function `web : String → Option (String × Soup)`
giving the final URL and parsed content of a successful fetch, `none`
for any fetch or parse failure.  Sub-page fetches ignore the final URL,
as the source does.  `asyncio.gather` resolves the batch in task order;
the `while` loop is modelled with explicit fuel — every theorem below
holds for every fuel value. -/

/-- Python `s or dflt` for an optional string result. -/
def orElseStr (s : Option String) (dflt : String) : String :=
  match s with
  | some v => if v ≠ "" then v else dflt
  | none => dflt

structure TaskOutcome where
  pageData : PageData
  discovered : List String
deriving Repr, DecidableEq

/-- The synthetic error `PageResult` produced for a failed page:
`status="error"`, `score=0`, `issues=1`, `title="Failed to load"`, and
no `issueDetails` key. -/
def errorPageData (page_url : String) : PageData :=
  { url := page_url, status := "error", score := 0, issues := 1,
    title := "Failed to load", issueDetails := none }

/-- Model of `analysis.analyze_page`: fetch and score one page with
`extract_seo_data`, discover its links; any exception yields the
synthetic error `PageResult` (`status="error"`, `score=0`, `issues=1`,
`title="Failed to load"`, and no `issueDetails` key). -/
def analyzePage (web : String → Option Soup) (page_url : String) : TaskOutcome :=
  match web page_url with
  | some soup =>
    let e := extract_seo_data soup page_url
    { pageData :=
        { url := page_url, status := "200", score := e.score,
          issues := e.issue_count,
          title := orElseStr e.title "Untitled Page",
          issueDetails := some e.issue_details },
      discovered := discover_links soup.aHrefs page_url }
  | none =>
    { pageData := errorPageData page_url,
      discovered := [] }

structure CrawlState where
  pagesToCrawl : List String
  crawledUrls : List String
  crawledPages : List PageData
  fetched : List String
deriving Repr, DecidableEq

/-- The inner `for new_url in result["discovered_urls"]` merge: append a
URL to the frontier only when it is neither visited nor queued. -/
def addDiscovered (visited frontier new : List String) : List String :=
  new.foldl (fun f u => if u ∈ visited ∨ u ∈ f then f else f ++ [u]) frontier

/-- The `for result in results` merge loop: append the page result, mark
its URL visited, merge its discovered URLs, and break once
`len(crawled_pages) >= max_pages`. -/
def processResults (maxPages : Int) : List TaskOutcome → CrawlState → CrawlState
  | [], st => st
  | r :: rs, st =>
    let st1 : CrawlState :=
      { st with crawledPages := st.crawledPages ++ [r.pageData],
                crawledUrls := setAdd st.crawledUrls r.pageData.url }
    let st2 : CrawlState :=
      { st1 with pagesToCrawl := addDiscovered st1.crawledUrls st1.pagesToCrawl r.discovered }
    if (st2.crawledPages.length : Int) ≥ maxPages then st2
    else processResults maxPages rs st2

/-- The `while pages_to_crawl and len(crawled_pages) < max_pages` loop:
take a batch from the frontier, fetch the not-yet-visited URLs of the
batch concurrently, and merge the results.  `fetched` instruments the
URLs actually passed to `analyzePage`. -/
def crawlLoop (web : String → Option Soup) (maxPages : Int) (batchSize : Nat) :
    Nat → CrawlState → CrawlState
  | 0, st => st
  | fuel + 1, st =>
    if st.pagesToCrawl = [] ∨ ¬ ((st.crawledPages.length : Int) < maxPages) then st
    else
      let batch := st.pagesToCrawl.take batchSize
      let toFetch := batch.filter (fun u => decide (u ∉ st.crawledUrls))
      let results := toFetch.map (analyzePage web)
      let st1 : CrawlState :=
        { st with pagesToCrawl := st.pagesToCrawl.drop batchSize,
                  fetched := st.fetched ++ toFetch }
      crawlLoop web maxPages batchSize fuel (processResults maxPages results st1)

structure SEOAnalyzeRequest where
  url : String
  deep_scan : Bool
  max_pages : Int
deriving Repr, DecidableEq

/-- The main-page entry appended to `crawled_pages` before the loop. -/
def mainPageOf (finalUrl : String) (seoData : AnalyzeResult) : PageData :=
  { url := finalUrl, status := "200", score := seoData.score,
    issues := seoData.issues.length,
    title := orElseStr seoData.meta.title "Main Page",
    issueDetails := some seoData.issues }

/-- The crawl session state before the loop: frontier seeded with the
seed page's internal URLs minus the seed itself, seed marked visited,
main page first in the results. -/
def initialCrawlState (finalUrl : String) (seoData : AnalyzeResult) : CrawlState :=
  { pagesToCrawl := seoData.links.internalUrls.filter (fun u => decide (u ≠ finalUrl)),
    crawledUrls := [finalUrl],
    crawledPages := [mainPageOf finalUrl seoData],
    fetched := [] }

/-- The whole deep-scan loop of `analysis.seo_analyze`. -/
def deepCrawl (web : String → Option Soup) (finalUrl : String)
    (seoData : AnalyzeResult) (maxPages : Int) (fuel : Nat) : CrawlState :=
  crawlLoop web maxPages 10 fuel (initialCrawlState finalUrl seoData)

/-- Model of `analysis.seo_analyze`: fetch and analyze the seed; on deep scan run
the crawl and overwrite `crawledPages`; any seed failure becomes the
HTTP-500 error of the endpoint. -/
def seo_analyze (web : String → Option (String × Soup)) (req : SEOAnalyzeRequest)
    (fuel : Nat) : Except String AnalyzeResult :=
  match web req.url with
  | none => Except.error "SEO analysis failed"
  | some (finalUrl, soup) =>
    let seoData := analyze_html soup finalUrl
    if req.deep_scan then
      let fin := deepCrawl (fun u => (web u).map (fun p => p.2)) finalUrl seoData
        req.max_pages fuel
      Except.ok { seoData with crawledPages := fin.crawledPages }
    else Except.ok seoData

/-! ### Crawl invariants (C5, C6, C7) -/

lemma setAdd_mem_mono {l : List String} {u v : String} (h : v ∈ l) :
    v ∈ setAdd l u := by
  unfold setAdd
  split
  · exact h
  · simp [h]

lemma setAdd_self_mem (l : List String) (u : String) : u ∈ setAdd l u := by
  unfold setAdd
  split
  · assumption
  · simp

lemma mem_setAdd_iff {l : List String} {u v : String} :
    v ∈ setAdd l u ↔ v ∈ l ∨ v = u := by
  constructor
  · exact setAdd_mem_elim
  · intro h
    rcases h with h | h
    · exact setAdd_mem_mono h
    · subst h
      exact setAdd_self_mem l v

lemma addDiscovered_nodup {vis f new : List String} (h : f.Nodup) :
    (addDiscovered vis f new).Nodup := by
  unfold addDiscovered
  apply foldl_inv (P := fun (x : List String) => x.Nodup) _ _ _ h
  intro a b _ ha
  split
  · exact ha
  · next hcond =>
    push_neg at hcond
    simp [List.nodup_append, ha, hcond.2]

lemma analyzePage_url (web : String → Option Soup) (u : String) :
    (analyzePage web u).pageData.url = u := by
  unfold analyzePage
  split <;> rfl

lemma processResults_cons (m : Int) (r : TaskOutcome) (rs : List TaskOutcome)
    (st : CrawlState) :
    processResults m (r :: rs) st =
      if ((st.crawledPages ++ [r.pageData]).length : Int) ≥ m then
        { pagesToCrawl := addDiscovered (setAdd st.crawledUrls r.pageData.url)
            st.pagesToCrawl r.discovered,
          crawledUrls := setAdd st.crawledUrls r.pageData.url,
          crawledPages := st.crawledPages ++ [r.pageData],
          fetched := st.fetched }
      else
        processResults m rs
          { pagesToCrawl := addDiscovered (setAdd st.crawledUrls r.pageData.url)
              st.pagesToCrawl r.discovered,
            crawledUrls := setAdd st.crawledUrls r.pageData.url,
            crawledPages := st.crawledPages ++ [r.pageData],
            fetched := st.fetched } :=
  rfl

/-- Invariant preservation through the batch-merge loop
`processResults`: result URLs stay distinct and visited, the frontier
stays duplicate-free, the main page stays first, every entry is the main
page or the `analyzePage` output for its URL, the page budget is
respected, and — unless the budget break fired — every fetched URL ends
up visited.  `fetched` is untouched. -/
lemma processResults_spec (web : String → Option Soup) (mp : PageData) (m : Int) :
    ∀ (rs : List TaskOutcome) (st : CrawlState),
      (st.crawledPages.map PageData.url).Nodup →
      (∀ p ∈ st.crawledPages, p.url ∈ st.crawledUrls) →
      st.pagesToCrawl.Nodup →
      st.crawledPages.head? = some mp →
      (∀ p ∈ st.crawledPages, p = mp ∨ p = (analyzePage web p.url).pageData) →
      mp.url ∈ st.crawledUrls →
      (rs.map (fun r => r.pageData.url)).Nodup →
      (∀ r ∈ rs, r.pageData.url ∉ st.crawledUrls) →
      (∀ r ∈ rs, r = analyzePage web r.pageData.url) →
      ((st.crawledPages.length : Int) < m) →
      (∀ u ∈ st.fetched, u ∈ st.crawledUrls ∨ u ∈ rs.map (fun r => r.pageData.url)) →
      (((processResults m rs st).crawledPages.map PageData.url).Nodup ∧
       (∀ p ∈ (processResults m rs st).crawledPages,
          p.url ∈ (processResults m rs st).crawledUrls) ∧
       (processResults m rs st).pagesToCrawl.Nodup ∧
       (processResults m rs st).crawledPages.head? = some mp ∧
       (∀ p ∈ (processResults m rs st).crawledPages,
          p = mp ∨ p = (analyzePage web p.url).pageData) ∧
       mp.url ∈ (processResults m rs st).crawledUrls ∧
       (((processResults m rs st).crawledPages.length : Int) ≤ m) ∧
       (((processResults m rs st).crawledPages.length : Int) < m →
          ∀ u ∈ (processResults m rs st).fetched,
            u ∈ (processResults m rs st).crawledUrls) ∧
       (processResults m rs st).fetched = st.fetched) := by
  intro rs
  induction rs with
  | nil =>
    intro st h1 h2 h3 h4 h5 h6 _ _ _ hlen hf
    refine ⟨h1, h2, h3, h4, h5, h6, le_of_lt hlen, ?_, rfl⟩
    intro _ u hu
    rcases hf u hu with h | h
    · exact h
    · simp at h
  | cons r rs ih =>
    intro st h1 h2 h3 h4 h5 h6 hnd hnotin hform hlen hf
    have hru : r.pageData.url ∉ st.crawledUrls := hnotin r (by simp)
    -- facts about the merged state
    have k1 : ((st.crawledPages ++ [r.pageData]).map PageData.url).Nodup := by
      rw [List.map_append]
      rw [List.nodup_append]
      refine ⟨h1, by simp, ?_⟩
      intro x hx
      rcases List.mem_map.mp hx with ⟨p, hp, hpx⟩
      simp only [List.map_cons, List.map_nil, List.mem_singleton]
      intro hxe
      subst hxe
      exact hru (hpx ▸ h2 p hp)
    have k2 : ∀ p ∈ st.crawledPages ++ [r.pageData],
        p.url ∈ setAdd st.crawledUrls r.pageData.url := by
      intro p hp
      rcases List.mem_append.mp hp with hp | hp
      · exact setAdd_mem_mono (h2 p hp)
      · simp only [List.mem_singleton] at hp
        subst hp
        exact setAdd_self_mem _ _
    have k3 : (addDiscovered (setAdd st.crawledUrls r.pageData.url)
        st.pagesToCrawl r.discovered).Nodup := addDiscovered_nodup h3
    have k4 : (st.crawledPages ++ [r.pageData]).head? = some mp := by
      cases hc : st.crawledPages with
      | nil => rw [hc] at h4; simp at h4
      | cons a t =>
        rw [hc] at h4
        simp at h4
        simp [hc, h4]
    have k5 : ∀ p ∈ st.crawledPages ++ [r.pageData],
        p = mp ∨ p = (analyzePage web p.url).pageData := by
      intro p hp
      rcases List.mem_append.mp hp with hp | hp
      · exact h5 p hp
      · simp only [List.mem_singleton] at hp
        subst hp
        right
        exact congrArg TaskOutcome.pageData (hform r (by simp))
    have k6 : mp.url ∈ setAdd st.crawledUrls r.pageData.url := setAdd_mem_mono h6
    have hlen1 : ((st.crawledPages ++ [r.pageData]).length : Int)
        = (st.crawledPages.length : Int) + 1 := by
      simp
    rw [processResults_cons]
    by_cases hbreak : ((st.crawledPages ++ [r.pageData]).length : Int) ≥ m
    · rw [if_pos hbreak]
      refine ⟨k1, k2, k3, k4, k5, k6, ?_, ?_, rfl⟩
      · show ((st.crawledPages ++ [r.pageData]).length : Int) ≤ m
        omega
      · intro hlt
        exfalso
        exact absurd hbreak (not_le.mpr hlt)
    · rw [if_neg hbreak]
      have hres := ih
        { pagesToCrawl := addDiscovered (setAdd st.crawledUrls r.pageData.url)
            st.pagesToCrawl r.discovered,
          crawledUrls := setAdd st.crawledUrls r.pageData.url,
          crawledPages := st.crawledPages ++ [r.pageData],
          fetched := st.fetched }
        k1 k2 k3 k4 k5 k6
        (by
          have := hnd
          simp only [List.map_cons] at this
          exact this.of_cons)
        (by
          intro r' hr'
          rw [mem_setAdd_iff]
          push_neg
          refine ⟨hnotin r' (by simp [hr']), ?_⟩
          have := hnd
          simp only [List.map_cons, List.nodup_cons] at this
          intro he
          exact this.1 (he ▸ List.mem_map_of_mem (fun x => x.pageData.url) hr'))
        (fun r' hr' => hform r' (by simp [hr']))
        (by
          show ((st.crawledPages ++ [r.pageData]).length : Int) < m
          omega)
        (by
          intro u hu
          rcases hf u hu with h | h
          · exact Or.inl (setAdd_mem_mono h)
          · simp only [List.map_cons, List.mem_cons] at h
            rcases h with h | h
            · exact Or.inl (h ▸ setAdd_self_mem _ _)
            · exact Or.inr h)
      exact hres

/-- The crawl-session invariant: result URLs are distinct and visited,
the frontier is duplicate-free, the main page is first, every result is
the main page or the `analyzePage` output for its URL, fetches are
never repeated and never hit the seed, every fetched URL is visited
unless the budget break fired, and the budget holds whenever it is at
least 1. -/
def CrawlInv (web : String → Option Soup) (mp : PageData) (m : Int)
    (st : CrawlState) : Prop :=
  (st.crawledPages.map PageData.url).Nodup ∧
  (∀ p ∈ st.crawledPages, p.url ∈ st.crawledUrls) ∧
  st.pagesToCrawl.Nodup ∧
  st.crawledPages.head? = some mp ∧
  (∀ p ∈ st.crawledPages, p = mp ∨ p = (analyzePage web p.url).pageData) ∧
  mp.url ∈ st.crawledUrls ∧
  st.fetched.Nodup ∧
  (((st.crawledPages.length : Int) < m) → ∀ u ∈ st.fetched, u ∈ st.crawledUrls) ∧
  mp.url ∉ st.fetched ∧
  (1 ≤ m → (st.crawledPages.length : Int) ≤ m)

lemma crawlLoop_inv (web : String → Option Soup) (mp : PageData) (m : Int)
    (bs : Nat) :
    ∀ (fuel : Nat) (st : CrawlState), CrawlInv web mp m st →
      CrawlInv web mp m (crawlLoop web m bs fuel st) := by
  intro fuel
  induction fuel with
  | zero => intro st h; exact h
  | succ fuel ih =>
    intro st h
    obtain ⟨h1, h2, h3, h4, h5, h6, h7, h8, h9, h10⟩ := h
    unfold crawlLoop
    split
    · exact ⟨h1, h2, h3, h4, h5, h6, h7, h8, h9, h10⟩
    · next hguard =>
      push_neg at hguard
      obtain ⟨hne, hlt⟩ := hguard
      apply ih
      set toFetch :=
        (st.pagesToCrawl.take bs).filter (fun u => decide (u ∉ st.crawledUrls)) with htf
      set st1 : CrawlState :=
        { st with pagesToCrawl := st.pagesToCrawl.drop bs,
                  fetched := st.fetched ++ toFetch } with hst1
      have hmapurl : ((toFetch.map (analyzePage web)).map (fun r => r.pageData.url))
          = toFetch := by
        rw [List.map_map]
        simp [Function.comp_def, analyzePage_url]
      have htfnd : toFetch.Nodup :=
        (h3.sublist (List.take_sublist _ _)).filter _
      have htfnew : ∀ u ∈ toFetch, u ∉ st.crawledUrls := by
        intro u hu
        rw [htf] at hu
        exact of_decide_eq_true ((List.mem_filter.mp hu).2)
      have hres := processResults_spec web mp m (toFetch.map (analyzePage web)) st1
        h1 h2 (h3.sublist (List.drop_sublist _ _)) h4 h5 h6
        (by rw [hmapurl]; exact htfnd)
        (by
          intro r hr
          rcases List.mem_map.mp hr with ⟨u, hu, hru⟩
          subst hru
          rw [analyzePage_url]
          exact htfnew u hu)
        (by
          intro r hr
          rcases List.mem_map.mp hr with ⟨u, hu, hru⟩
          subst hru
          rw [analyzePage_url])
        hlt
        (by
          intro u hu
          rcases List.mem_append.mp hu with hu | hu
          · exact Or.inl (h8 hlt u hu)
          · rw [hmapurl]
            exact Or.inr hu)
      obtain ⟨c1, c2, c3, c4, c5, c6, c7, c8, c9⟩ := hres
      refine ⟨c1, c2, c3, c4, c5, c6, ?_, c8, ?_, fun _ => c7⟩
      · rw [c9]
        show (st.fetched ++ toFetch).Nodup
        rw [List.nodup_append]
        refine ⟨h7, htfnd, ?_⟩
        intro u hu
        exact fun htc => htfnew u htc (h8 hlt u hu)
      · rw [c9]
        show mp.url ∉ st.fetched ++ toFetch
        rw [List.mem_append]
        push_neg
        exact ⟨h9, fun htc => htfnew _ htc h6⟩

lemma crawlLoop_stop {web : String → Option Soup} {m : Int} {bs : Nat}
    {st : CrawlState} (h : ¬ ((st.crawledPages.length : Int) < m)) :
    ∀ fuel, crawlLoop web m bs fuel st = st := by
  intro fuel
  cases fuel with
  | zero => rfl
  | succ fuel =>
    unfold crawlLoop
    rw [if_pos (Or.inr h)]

lemma initial_inv (web : String → Option Soup) (finalUrl : String)
    (seoData : AnalyzeResult) (m : Int)
    (hnodup : seoData.links.internalUrls.Nodup) :
    CrawlInv web (mainPageOf finalUrl seoData) m
      (initialCrawlState finalUrl seoData) := by
  unfold CrawlInv initialCrawlState
  refine ⟨by simp, by simp [mainPageOf], hnodup.filter _, by simp, by simp, ?_,
    by simp, by simp, by simp, ?_⟩
  · simp [mainPageOf]
  · intro h1m
    simpa using h1m

lemma seo_analyze_deep (web : String → Option (String × Soup))
    (req : SEOAnalyzeRequest) (fuel : Nat) (finalUrl : String) (soup : Soup)
    (hweb : web req.url = some (finalUrl, soup)) (hdeep : req.deep_scan = true) :
    seo_analyze web req fuel = Except.ok
      { analyze_html soup finalUrl with
        crawledPages := (deepCrawl (fun u => (web u).map (fun p => p.2)) finalUrl
          (analyze_html soup finalUrl) req.max_pages fuel).crawledPages } := by
  unfold seo_analyze
  rw [hweb]
  simp [hdeep]

lemma deepCrawl_inv (web' : String → Option Soup) (finalUrl : String)
    (soup : Soup) (m : Int) (fuel : Nat) :
    CrawlInv web' (mainPageOf finalUrl (analyze_html soup finalUrl)) m
      (deepCrawl web' finalUrl (analyze_html soup finalUrl) m fuel) := by
  apply crawlLoop_inv
  apply initial_inv
  exact (extract_links_inv soup.aHrefs finalUrl).2.1

/-- C5: over any deep-scan crawl, no URL appears twice in the returned
`crawledPages` (their count equals the count of distinct URLs), and no
URL is fetched twice nor is the already-visited seed ever fetched. -/
theorem crawl_never_revisits (web : String → Option (String × Soup))
    (req : SEOAnalyzeRequest) (fuel : Nat) (finalUrl : String) (soup : Soup)
    (res : AnalyzeResult)
    (hweb : web req.url = some (finalUrl, soup)) (hdeep : req.deep_scan = true)
    (hok : seo_analyze web req fuel = Except.ok res) :
    (res.crawledPages.map PageData.url).Nodup ∧
    res.crawledPages.length = (res.crawledPages.map PageData.url).dedup.length ∧
    (deepCrawl (fun u => (web u).map (fun p => p.2)) finalUrl
        (analyze_html soup finalUrl) req.max_pages fuel).fetched.Nodup ∧
    finalUrl ∉ (deepCrawl (fun u => (web u).map (fun p => p.2)) finalUrl
        (analyze_html soup finalUrl) req.max_pages fuel).fetched := by
  have hres := seo_analyze_deep web req fuel finalUrl soup hweb hdeep
  rw [hres] at hok
  have hok' := Except.ok.inj hok
  have hcp : res.crawledPages = (deepCrawl (fun u => (web u).map (fun p => p.2))
      finalUrl (analyze_html soup finalUrl) req.max_pages fuel).crawledPages := by
    rw [← hok']
  obtain ⟨i1, i2, i3, i4, i5, i6, i7, i8, i9, i10⟩ :=
    deepCrawl_inv (fun u => (web u).map (fun p => p.2)) finalUrl soup req.max_pages fuel
  refine ⟨?_, ?_, i7, i9⟩
  · rw [hcp]
    exact i1
  · rw [hcp, List.dedup_eq_self.mpr i1, List.length_map]

/-- C6 (amended): when `maxPages ≥ 1`, a deep-scan crawl returns at most
`maxPages` results, the first result is always the seed page's, and
`maxPages = 1` returns exactly the seed result.  (The `maxPages ≥ 1`
hypothesis is forced by the counterexample below: the request model does
not bound `max_pages`, and the seed result is appended unconditionally.) -/
theorem crawl_budget_amended (web : String → Option (String × Soup))
    (req : SEOAnalyzeRequest) (fuel : Nat) (finalUrl : String) (soup : Soup)
    (res : AnalyzeResult)
    (hweb : web req.url = some (finalUrl, soup)) (hdeep : req.deep_scan = true)
    (hmax : 1 ≤ req.max_pages)
    (hok : seo_analyze web req fuel = Except.ok res) :
    (res.crawledPages.length : Int) ≤ req.max_pages ∧
    res.crawledPages.head? = some (mainPageOf finalUrl (analyze_html soup finalUrl)) ∧
    (req.max_pages = 1 →
      res.crawledPages = [mainPageOf finalUrl (analyze_html soup finalUrl)]) := by
  have hres := seo_analyze_deep web req fuel finalUrl soup hweb hdeep
  rw [hres] at hok
  have hok' := Except.ok.inj hok
  have hcp : res.crawledPages = (deepCrawl (fun u => (web u).map (fun p => p.2))
      finalUrl (analyze_html soup finalUrl) req.max_pages fuel).crawledPages := by
    rw [← hok']
  obtain ⟨i1, i2, i3, i4, i5, i6, i7, i8, i9, i10⟩ :=
    deepCrawl_inv (fun u => (web u).map (fun p => p.2)) finalUrl soup req.max_pages fuel
  refine ⟨?_, ?_, ?_⟩
  · rw [hcp]
    exact i10 hmax
  · rw [hcp]
    exact i4
  · intro h1
    have hstop : deepCrawl (fun u => (web u).map (fun p => p.2)) finalUrl
        (analyze_html soup finalUrl) req.max_pages fuel
        = initialCrawlState finalUrl (analyze_html soup finalUrl) := by
      unfold deepCrawl
      apply crawlLoop_stop
      rw [h1]
      show ¬ ((([mainPageOf finalUrl (analyze_html soup finalUrl)] : List PageData).length : Int) < 1)
      norm_num
    rw [hcp, hstop]
    rfl

/-- C7: per-page failure isolation.  Every `crawledPages` entry whose
URL failed to fetch is exactly the synthetic error record
(`status="error"`, `score=0`, `issues=1`, `title="Failed to load"`);
non-seed failures never make the request fail (any reachable seed gives
`Except.ok`); and a seed failure is the fatal failure of the whole
request. -/
theorem failure_isolation (web : String → Option (String × Soup))
    (req : SEOAnalyzeRequest) (fuel : Nat) :
    (∀ finalUrl soup res, web req.url = some (finalUrl, soup) →
      req.deep_scan = true → seo_analyze web req fuel = Except.ok res →
      ∀ p ∈ res.crawledPages, p.url ≠ finalUrl → (web p.url).isNone = true →
        p = errorPageData p.url) ∧
    ((web req.url).isSome = true → (seo_analyze web req fuel).isOk = true) ∧
    (web req.url = none →
      seo_analyze web req fuel = Except.error "SEO analysis failed") := by
  refine ⟨?_, ?_, ?_⟩
  · intro finalUrl soup res hweb hdeep hok p hp hpne hnone
    have hres := seo_analyze_deep web req fuel finalUrl soup hweb hdeep
    rw [hres] at hok
    have hok' := Except.ok.inj hok
    have hcp : res.crawledPages = (deepCrawl (fun u => (web u).map (fun q => q.2))
        finalUrl (analyze_html soup finalUrl) req.max_pages fuel).crawledPages := by
      rw [← hok']
    obtain ⟨i1, i2, i3, i4, i5, i6, i7, i8, i9, i10⟩ :=
      deepCrawl_inv (fun u => (web u).map (fun q => q.2)) finalUrl soup req.max_pages fuel
    rw [hcp] at hp
    rcases i5 p hp with hmp | hap
    · exfalso
      exact hpne (by rw [hmp]; rfl)
    · have hw' : (fun u => (web u).map (fun q => q.2)) p.url = none := by
        have := Option.isNone_iff_eq_none.mp hnone
        simp [this]
      have hred : analyzePage (fun u => (web u).map (fun q => q.2)) p.url
          = { pageData := errorPageData p.url, discovered := [] } := by
        unfold analyzePage
        rw [hw']
      rw [hap, hred]
      rfl
  · intro hsome
    unfold seo_analyze
    rcases hw : web req.url with _ | fs
    · rw [hw] at hsome
      simp at hsome
    · rcases fs with ⟨f, s⟩
      by_cases hd : req.deep_scan = true <;> simp [hd, Except.isOk] <;> rfl
  · intro h
    unfold seo_analyze
    rw [h]

/-- Projection used to state concrete facts about the endpoint result
without equating whole `Except` values. -/
def crawledCount : Except String AnalyzeResult → Option Nat
  | Except.ok r => some r.crawledPages.length
  | Except.error _ => none

/-- A web serving only the seed, with no links. -/
def cexWeb : String → Option (String × Soup) := fun u =>
  if u = "https://example.com/" then some ("https://example.com/", emptySoup) else none

/-- A deep-scan request with `max_pages = 0` — accepted by the request
model, which does not bound `max_pages`. -/
def cexReq0 : SEOAnalyzeRequest :=
  { url := "https://example.com/", deep_scan := true, max_pages := 0 }

/-- C6 (counterexample): with `max_pages = 0` the crawl still returns
one result (the seed is appended unconditionally before the loop), so
`|crawledPages| ≤ maxPages` fails as stated. -/
theorem crawl_budget_claim_counterexample :
    crawledCount (seo_analyze cexWeb cexReq0 3) = some 1 ∧
    ¬ ((1 : Int) ≤ cexReq0.max_pages) := by
  decide

/-- A seed page linking to `/a` (reachable) and `/b` (failing). -/
def wSeedSoup : Soup :=
  { titleString := none, metas := [], linkTags := [], hTexts := [],
    imgs := [], aHrefs := ["/a", "/b", "/a"], contentText := "" }

def wWeb : String → Option (String × Soup) := fun u =>
  if u = "https://example.com/" then some ("https://example.com/", wSeedSoup)
  else if u = "https://example.com/a" then some ("https://example.com/a", emptySoup)
  else none

def wReq : SEOAnalyzeRequest :=
  { url := "https://example.com/", deep_scan := true, max_pages := 10 }

/-- The concrete endpoint result for `wWeb`/`wReq`. -/
def wRes : AnalyzeResult :=
  match seo_analyze wWeb wReq 3 with
  | Except.ok r => r
  | Except.error e => analyze_html emptySoup e

/-- Witness for the C5 theorem at a concrete three-page crawl. -/
theorem crawl_never_revisits_witness :
    (wRes.crawledPages.map PageData.url).Nodup ∧
    wRes.crawledPages.length = (wRes.crawledPages.map PageData.url).dedup.length ∧
    (deepCrawl (fun u => (wWeb u).map (fun p => p.2)) "https://example.com/"
        (analyze_html wSeedSoup "https://example.com/") wReq.max_pages 3).fetched.Nodup ∧
    "https://example.com/" ∉ (deepCrawl (fun u => (wWeb u).map (fun p => p.2))
        "https://example.com/" (analyze_html wSeedSoup "https://example.com/")
        wReq.max_pages 3).fetched :=
  crawl_never_revisits wWeb wReq 3 "https://example.com/" wSeedSoup wRes
    (by decide) rfl (by rfl)

/-- Witness for the amended C6 theorem at the same crawl. -/
theorem crawl_budget_amended_witness :
    (wRes.crawledPages.length : Int) ≤ wReq.max_pages ∧
    wRes.crawledPages.head?
      = some (mainPageOf "https://example.com/"
          (analyze_html wSeedSoup "https://example.com/")) ∧
    (wReq.max_pages = 1 →
      wRes.crawledPages = [mainPageOf "https://example.com/"
        (analyze_html wSeedSoup "https://example.com/")]) :=
  crawl_budget_amended wWeb wReq 3 "https://example.com/" wSeedSoup wRes
    (by decide) rfl (by decide) (by rfl)

/-- Witness for the C7 theorem: the failing page `/b` appears as exactly
the synthetic error record, the request still succeeds, and a failing
seed is fatal. -/
theorem failure_isolation_witness :
    errorPageData "https://example.com/b" = errorPageData "https://example.com/b" ∧
    (seo_analyze wWeb wReq 3).isOk = true ∧
    seo_analyze (fun _ => none) wReq 3 = Except.error "SEO analysis failed" :=
  ⟨(failure_isolation wWeb wReq 3).1 "https://example.com/" wSeedSoup wRes
      (by decide) rfl (by rfl) (errorPageData "https://example.com/b")
      (by decide) (by decide) (by decide),
   (failure_isolation wWeb wReq 3).2.1 (by decide),
   (failure_isolation (fun _ => none) wReq 3).2.2 rfl⟩
